import Mathlib

/-!
# Bloom-Watch feature engineering: a shallow embedding

Verification development for the crop water-stress feature/label pipeline
(`src/2_ingenieria_features.py`, `src/3_entrenamiento_modelo.py`,
`src/4_api_prediccion.py`).  Numeric values are modelled as exact
rationals (`ℚ`); a pandas null (`NaN` produced by `Series.diff`) is
modelled as `Option ℚ` with `none` for null, and pandas comparison
semantics (`NaN < c` is `False`) are reproduced explicitly.

`crear_features` receives the observation series already sorted
ascending by date: the Python function sorts the dataframe by `date` as
its first step, and every property below is stated about the rows of
that date-sorted series.
-/

namespace BloomWatch

/-- A calendar date, as produced by `pd.to_datetime` (already parsed;
string parsing itself is outside the embedding). -/
structure Fecha where
  ano : ℕ
  mes : ℕ
  dia : ℕ
deriving Inhabited

/-- Gregorian leap-year rule, used by the calendar accessors
(`dt.dayofyear`, day subtraction) of pandas timestamps. -/
def esBisiesto (y : ℕ) : Bool :=
  (y % 4 == 0 && y % 100 != 0) || (y % 400 == 0)

/-- Days in month `m` of year `y` (Gregorian). -/
def diasDelMes (y m : ℕ) : ℕ :=
  if m = 2 then (if esBisiesto y then 29 else 28)
  else if m = 4 ∨ m = 6 ∨ m = 9 ∨ m = 11 then 30
  else 31

/-- Day-of-year of a date (`pd.Timestamp.dayofyear`): days of the full
months before `mes`, plus `dia`. -/
def Fecha.diaDelAno (d : Fecha) : ℕ :=
  (List.range (d.mes - 1)).foldl (fun acc k => acc + diasDelMes d.ano (k + 1)) d.dia

/-- Days elapsed before January 1 of year `y` in the proleptic Gregorian
calendar, so that date subtraction (`(date - date.min).dt.days`) can be
expressed as a difference of absolute day numbers. -/
def diasAntesDelAno (y : ℕ) : ℕ :=
  365 * (y - 1) + (y - 1) / 4 - (y - 1) / 100 + (y - 1) / 400

/-- Absolute day number of a date (proleptic Gregorian), the embedding
of a pandas timestamp for the purpose of day differences. -/
def Fecha.aDias (d : Fecha) : ℕ :=
  diasAntesDelAno d.ano + d.diaDelAno

/-- One raw daily observation: a row of the input dataframe after
`pd.read_csv` and `dropna()` (so every raw field is present). -/
structure Obs where
  date : Fecha
  ndvi : ℚ
  evi : ℚ
  lst : ℚ
  tmax : ℚ
  tmin : ℚ
  soil_humidity : ℚ
deriving Inhabited

/-- `Series.clip(lo, hi)` of pandas on a single value. -/
def clip (x lo hi : ℚ) : ℚ := min (max x lo) hi

/-- `Series.quantile(q)` of pandas (numpy linear interpolation): sort
the values ascending, take position `h = (n-1)·q`, and interpolate
linearly between the neighbouring order statistics. -/
def quantile (xs : List ℚ) (q : ℚ) : ℚ :=
  let s := List.insertionSort (· ≤ ·) xs
  let h : ℚ := ((s.length : ℚ) - 1) * q
  let i : ℕ := (⌊h⌋).toNat
  let lo := s.getD i 0
  let hi := s.getD (i + 1) lo
  lo + (h - (i : ℚ)) * (hi - lo)

/-- `Series.rolling(window=w, min_periods=1).mean()` at row index `i`:
the mean of the trailing window of the last `min (i+1) w` values ending
at `i`. -/
def rollingMeanAt (xs : List ℚ) (w i : ℕ) : ℚ :=
  let win := (xs.take (i + 1)).drop (i + 1 - w)
  win.sum / (win.length : ℚ)

/-- `Series.rolling(window=w, min_periods=1).max()` at row index `i`. -/
def rollingMaxAt (xs : List ℚ) (w i : ℕ) : ℚ :=
  match (xs.take (i + 1)).drop (i + 1 - w) with
  | [] => 0
  | v :: vs => vs.foldl max v

/-- `Series.diff(w)` at row index `i`: null (`none`) when no row exists
`w` positions earlier, otherwise the signed difference with that row. -/
def diffAt (xs : List ℚ) (w i : ℕ) : Option ℚ :=
  if w ≤ i then some (xs.getD i 0 - xs.getD (i - w) 0) else none

/-- Pandas comparison of a possibly-null value with a constant:
`NaN < c` evaluates to `False`. -/
def optLt (x : Option ℚ) (c : ℚ) : Bool :=
  match x with
  | none => false
  | some v => decide (v < c)

/-- The composite deficit score of `crear_features`
(src/2_ingenieria_features.py lines 40-54): normalised humidity and
temperature terms are clipped to [0,1] and the weighted blend is
clipped to [0,1] again as a whole. -/
def deficit_combinado (soil_humidity lst ndvi : ℚ) : ℚ :=
  let humedad_norm := clip (soil_humidity / 35.0) 0 1
  let temp_norm := clip ((lst - 25) / 20) 0 1
  clip ((1 - humedad_norm) * 0.5 + temp_norm * 0.3 + (1 - ndvi) * 0.2) 0 1

/-- The label-to-text map of `crear_features`
(`df['estres_nivel'].map({...})`); `Series.map` yields null outside the
dictionary's keys, modelled by `none`. -/
def mapa_etiqueta (n : ℕ) : Option String :=
  if n = 0 then some "sin_estres"
  else if n = 1 then some "estres_moderado"
  else if n = 2 then some "estres_severo"
  else none

/-- One row of the feature-augmented, labeled training table produced
by `crear_features`. -/
structure FeatureRow where
  date : Fecha
  ndvi : ℚ
  evi : ℚ
  lst : ℚ
  tmax : ℚ
  tmin : ℚ
  soil_humidity : ℚ
  ndvi_promedio_7d : ℚ
  ndvi_tendencia_7d : Option ℚ
  humedad_promedio_7d : ℚ
  humedad_tendencia_7d : Option ℚ
  lst_max_7d : ℚ
  tmax_promedio_7d : ℚ
  ndvi_promedio_14d : ℚ
  ndvi_tendencia_14d : Option ℚ
  humedad_promedio_14d : ℚ
  humedad_tendencia_14d : Option ℚ
  lst_max_14d : ℚ
  tmax_promedio_14d : ℚ
  evi_ndvi_ratio : ℚ
  temp_promedio : ℚ
  amplitud_termica : ℚ
  deficit_combinado : ℚ
  mes : ℕ
  dia_ano : ℕ
  dias_desde_inicio : ℤ
  estres_nivel : ℕ
  estres_etiqueta : Option String
deriving Inhabited

/-- Day number of the earliest date of the series
(`df['date'].min()`). -/
def fechaMinimaDias : List Obs → ℕ
  | [] => 0
  | o :: os => os.foldl (fun a p => min a p.date.aDias) o.date.aDias

/-- `p25_humedad = df['soil_humidity'].quantile(0.25)` of
`crear_features`, computed from the table's own humidity column. -/
def p25_humedad (rows : List Obs) : ℚ := quantile (rows.map (·.soil_humidity)) 0.25

/-- `p50_humedad = df['soil_humidity'].quantile(0.50)`. -/
def p50_humedad (rows : List Obs) : ℚ := quantile (rows.map (·.soil_humidity)) 0.50

/-- `p25_ndvi = df['ndvi'].quantile(0.25)`. -/
def p25_ndvi (rows : List Obs) : ℚ := quantile (rows.map (·.ndvi)) 0.25

/-- `p50_ndvi = df['ndvi'].quantile(0.50)`. -/
def p50_ndvi (rows : List Obs) : ℚ := quantile (rows.map (·.ndvi)) 0.50

/-- `p75_lst = df['lst'].quantile(0.75)`. -/
def p75_lst (rows : List Obs) : ℚ := quantile (rows.map (·.lst)) 0.75

/-- The `estres_moderado` mask of `crear_features`
(src/2_ingenieria_features.py lines 79-83) at row index `i`; a null
trend compares as false, exactly as a pandas `NaN < c`. -/
def estres_moderado (rows : List Obs) (i : ℕ) : Bool :=
  let o := rows.getD i default
  (decide (o.soil_humidity < p50_humedad rows) && decide (o.ndvi < p50_ndvi rows)) ||
  (decide (deficit_combinado o.soil_humidity o.lst o.ndvi > 0.4) &&
    decide (o.soil_humidity < p50_humedad rows)) ||
  (optLt (diffAt (rows.map (·.ndvi)) 7 i) (-0.03) &&
    decide (o.soil_humidity < p50_humedad rows))

/-- The `estres_severo` mask of `crear_features`
(src/2_ingenieria_features.py lines 87-91) at row index `i`. -/
def estres_severo (rows : List Obs) (i : ℕ) : Bool :=
  let o := rows.getD i default
  decide (o.soil_humidity < p25_humedad rows) ||
  (decide (o.ndvi < p25_ndvi rows) && decide (o.soil_humidity < p50_humedad rows)) ||
  (decide (o.lst > p75_lst rows) && optLt (diffAt (rows.map (·.ndvi)) 14 i) (-0.05))

/-- The stress level column of `crear_features`, assigned exactly as in
the source: every row starts at 0, rows matching the moderate mask are
set to 1, then rows matching the severe mask are set to 2 (overwriting
a previous 1). -/
def estres_nivel (rows : List Obs) (i : ℕ) : ℕ :=
  let nivel0 : ℕ := 0
  let nivel1 : ℕ := if estres_moderado rows i then 1 else nivel0
  if estres_severo rows i then 2 else nivel1

/-- The feature row that `crear_features` produces at index `i` of the
(date-sorted) series: every column of the Python dataframe after
src/2_ingenieria_features.py lines 22-99. -/
def filaFeatures (rows : List Obs) (i : ℕ) : FeatureRow :=
  let ndvis := rows.map (·.ndvi)
  let hums := rows.map (·.soil_humidity)
  let lsts := rows.map (·.lst)
  let tmaxs := rows.map (·.tmax)
  let o := rows.getD i default
  let nivel := estres_nivel rows i
  { date := o.date
    ndvi := o.ndvi
    evi := o.evi
    lst := o.lst
    tmax := o.tmax
    tmin := o.tmin
    soil_humidity := o.soil_humidity
    ndvi_promedio_7d := rollingMeanAt ndvis 7 i
    ndvi_tendencia_7d := diffAt ndvis 7 i
    humedad_promedio_7d := rollingMeanAt hums 7 i
    humedad_tendencia_7d := diffAt hums 7 i
    lst_max_7d := rollingMaxAt lsts 7 i
    tmax_promedio_7d := rollingMeanAt tmaxs 7 i
    ndvi_promedio_14d := rollingMeanAt ndvis 14 i
    ndvi_tendencia_14d := diffAt ndvis 14 i
    humedad_promedio_14d := rollingMeanAt hums 14 i
    humedad_tendencia_14d := diffAt hums 14 i
    lst_max_14d := rollingMaxAt lsts 14 i
    tmax_promedio_14d := rollingMeanAt tmaxs 14 i
    evi_ndvi_ratio := o.evi / (o.ndvi + 0.001)
    temp_promedio := (o.tmax + o.tmin) / 2
    amplitud_termica := o.tmax - o.tmin
    deficit_combinado := deficit_combinado o.soil_humidity o.lst o.ndvi
    mes := o.date.mes
    dia_ano := o.date.diaDelAno
    dias_desde_inicio := (o.date.aDias : ℤ) - (fechaMinimaDias rows : ℤ)
    estres_nivel := nivel
    estres_etiqueta := mapa_etiqueta nivel }

/-- Shallow embedding of `crear_features` (src/2_ingenieria_features.py):
takes the observation series already sorted ascending by date (the
Python function's own first step) and produces the feature-augmented,
labeled table, one `FeatureRow` per input row. -/
def crear_features (rows : List Obs) : List FeatureRow :=
  (List.range rows.length).map (filaFeatures rows)

/-- Shallow embedding of `procesar_datos` (src/2_ingenieria_features.py
lines 104-129) after CSV loading: `df.dropna()` removes raw rows with a
null raw field (an `Obs` models a raw row that survived that filter,
every raw field being total), after which the whole cleaned series is
passed to `crear_features`; no further filtering happens before the
table is returned and saved. -/
def procesar_datos (rows : List Obs) : List FeatureRow :=
  crear_features rows

/-- `True` when the row is kept by the trainer's
`df.dropna(subset=features + ['estres_nivel'])`
(src/3_entrenamiento_modelo.py line 45): among the required feature
columns only the four trend columns can be null, so the row survives
exactly when all four are present. -/
def sinNulosRequeridos (r : FeatureRow) : Bool :=
  r.ndvi_tendencia_7d.isSome && r.ndvi_tendencia_14d.isSome &&
  r.humedad_tendencia_7d.isSome && r.humedad_tendencia_14d.isSome

/-- Shallow embedding of `entrenar_modelo`
(src/3_entrenamiento_modelo.py) up to its label-diversity guard: the
table is filtered by `dropna` over the required feature columns, and if
the remaining labels have fewer than 2 distinct values the function
returns `None` (modelled `none`); otherwise training proceeds on the
cleaned rows (the library model fit itself is external, represented by
returning the prepared rows). -/
def entrenar_modelo (t : List FeatureRow) : Option (List FeatureRow) :=
  let df_limpio := t.filter sinNulosRequeridos
  let clases_unicas := ((df_limpio.map (·.estres_nivel)).dedup).length
  if clases_unicas < 2 then none else some df_limpio

/-- The request body of the prediction API
(src/4_api_prediccion.py, `class DatosEntrada`), with the date already
parsed (`pd.to_datetime(datos.date, dayfirst=True)`). -/
structure DatosEntrada where
  date : Fecha
  ndvi : ℚ
  evi : ℚ
  lst : ℚ
  tmax : ℚ
  tmin : ℚ
  soil_humidity : ℚ
deriving Inhabited

/-- The feature dictionary built by `calcular_features`
(src/4_api_prediccion.py lines 57-97).  Every entry of the Python dict
is a field; the trend entries are the literal number 0 there (not a
null), so they are `ℚ` here. -/
structure FeaturesDict where
  ndvi : ℚ
  evi : ℚ
  lst : ℚ
  tmax : ℚ
  tmin : ℚ
  soil_humidity : ℚ
  evi_ndvi_ratio : ℚ
  temp_promedio : ℚ
  amplitud_termica : ℚ
  deficit_combinado : ℚ
  mes : ℕ
  dia_ano : ℕ
  dias_desde_inicio : ℚ
  ndvi_promedio_7d : ℚ
  ndvi_tendencia_7d : ℚ
  humedad_promedio_7d : ℚ
  humedad_tendencia_7d : ℚ
  lst_max_7d : ℚ
  tmax_promedio_7d : ℚ
  ndvi_promedio_14d : ℚ
  ndvi_tendencia_14d : ℚ
  humedad_promedio_14d : ℚ
  humedad_tendencia_14d : ℚ
  lst_max_14d : ℚ
  tmax_promedio_14d : ℚ
deriving Inhabited

/-- Shallow embedding of `calcular_features`
(src/4_api_prediccion.py lines 57-97), the single-point feature
approximator: pointwise features from the one observation, the deficit
blend written exactly as in the source — without any clipping —, window
features substituted by the current values, trends by 0, and
`dias_desde_inicio` by 0. -/
def calcular_features (datos : DatosEntrada) : FeaturesDict :=
  { ndvi := datos.ndvi
    evi := datos.evi
    lst := datos.lst
    tmax := datos.tmax
    tmin := datos.tmin
    soil_humidity := datos.soil_humidity
    evi_ndvi_ratio := datos.evi / (datos.ndvi + 0.001)
    temp_promedio := (datos.tmax + datos.tmin) / 2
    amplitud_termica := datos.tmax - datos.tmin
    deficit_combinado :=
      (1 - datos.soil_humidity / 35) * 0.5 +
      ((datos.lst - 25) / 20) * 0.3 +
      (1 - datos.ndvi) * 0.2
    mes := datos.date.mes
    dia_ano := datos.date.diaDelAno
    dias_desde_inicio := 0
    ndvi_promedio_7d := datos.ndvi
    ndvi_tendencia_7d := 0
    humedad_promedio_7d := datos.soil_humidity
    humedad_tendencia_7d := 0
    lst_max_7d := datos.lst
    tmax_promedio_7d := datos.tmax
    ndvi_promedio_14d := datos.ndvi
    ndvi_tendencia_14d := 0
    humedad_promedio_14d := datos.soil_humidity
    humedad_tendencia_14d := 0
    lst_max_14d := datos.lst
    tmax_promedio_14d := datos.tmax }

/-! ## Basic lemmas about the embedding -/

theorem crear_features_length (rows : List Obs) :
    (crear_features rows).length = rows.length := by
  simp [crear_features]

theorem crear_features_getD (rows : List Obs) (i : ℕ) (hi : i < rows.length) :
    (crear_features rows).getD i default = filaFeatures rows i := by
  unfold crear_features
  rw [List.getD_eq_getElem _ _ (by simpa using hi)]
  simp

theorem clip_le_hi (x lo hi : ℚ) : clip x lo hi ≤ hi := min_le_right _ _

theorem lo_le_clip (x lo hi : ℚ) (h : lo ≤ hi) : lo ≤ clip x lo hi :=
  le_min (le_max_right _ _) h

/-! ## C7: the trend feature -/

/-- **C7.** For every series and window, `diffAt` (the embedding of
`Series.diff(window)`, the trend feature) at row `i` is null exactly
when `i` is among the first `window` rows, and otherwise is the signed
difference with the value `window` rows earlier; hence for a series
shorter than the window, every row's trend is null.  The trend columns
of the rows produced by `crear_features` are exactly these values. -/
theorem trend_null_iff_insufficient_history (xs : List ℚ) (w i : ℕ)
    (hi : i < xs.length) :
    (diffAt xs w i = none ↔ i < w) ∧
    (w ≤ i → diffAt xs w i = some (xs.getD i 0 - xs.getD (i - w) 0)) ∧
    (xs.length < w → diffAt xs w i = none) ∧
    (∀ rows : List Obs, i < rows.length →
      ((crear_features rows).getD i default).ndvi_tendencia_7d =
        diffAt (rows.map (·.ndvi)) 7 i ∧
      ((crear_features rows).getD i default).ndvi_tendencia_14d =
        diffAt (rows.map (·.ndvi)) 14 i ∧
      ((crear_features rows).getD i default).humedad_tendencia_7d =
        diffAt (rows.map (·.soil_humidity)) 7 i ∧
      ((crear_features rows).getD i default).humedad_tendencia_14d =
        diffAt (rows.map (·.soil_humidity)) 14 i) := by
  refine ⟨?_, ?_, ?_, ?_⟩
  · unfold diffAt
    split <;> simp <;> omega
  · intro h
    unfold diffAt
    simp [h]
  · intro h
    unfold diffAt
    split <;> [omega; rfl]
  · intro rows hrows
    rw [crear_features_getD rows i hrows]
    exact ⟨rfl, rfl, rfl, rfl⟩

theorem trend_null_iff_insufficient_history_witness :
    (0 : ℕ) < ([(1 : ℚ), 2, 3] : List ℚ).length ∧
    ((diffAt [(1 : ℚ), 2, 3] 7 0 = none ↔ 0 < 7) ∧
     (7 ≤ 0 → diffAt [(1 : ℚ), 2, 3] 7 0 =
        some ([(1 : ℚ), 2, 3].getD 0 0 - [(1 : ℚ), 2, 3].getD (0 - 7) 0)) ∧
     (([(1 : ℚ), 2, 3] : List ℚ).length < 7 → diffAt [(1 : ℚ), 2, 3] 7 0 = none) ∧
     (∀ rows : List Obs, 0 < rows.length →
      ((crear_features rows).getD 0 default).ndvi_tendencia_7d =
        diffAt (rows.map (·.ndvi)) 7 0 ∧
      ((crear_features rows).getD 0 default).ndvi_tendencia_14d =
        diffAt (rows.map (·.ndvi)) 14 0 ∧
      ((crear_features rows).getD 0 default).humedad_tendencia_7d =
        diffAt (rows.map (·.soil_humidity)) 7 0 ∧
      ((crear_features rows).getD 0 default).humedad_tendencia_14d =
        diffAt (rows.map (·.soil_humidity)) 14 0)) :=
  ⟨by decide, trend_null_iff_insufficient_history [(1 : ℚ), 2, 3] 7 0 (by decide)⟩

/-! ## C8: the rolling mean -/

/-- **C8.** For every non-empty series and window size `w > 0`, the
rolling mean at row `i` (the embedding of
`rolling(window=w, min_periods=1).mean()`) is the mean of the trailing
window ending at `i`, whose length is `min (i+1) w` — however many
prior rows exist, at least one; in particular the rolling mean at
row 0 is the raw value at row 0.  The rolling-mean columns of
`crear_features` are exactly these values. -/
theorem rolling_mean_partial_window (xs : List ℚ) (w i : ℕ)
    (hi : i < xs.length) (hw : 0 < w) :
    ((xs.take (i + 1)).drop (i + 1 - w)).length = min (i + 1) w ∧
    rollingMeanAt xs w i =
      ((xs.take (i + 1)).drop (i + 1 - w)).sum / ((min (i + 1) w : ℕ) : ℚ) ∧
    rollingMeanAt xs w 0 = xs.getD 0 0 ∧
    (∀ rows : List Obs, i < rows.length →
      ((crear_features rows).getD i default).ndvi_promedio_7d =
        rollingMeanAt (rows.map (·.ndvi)) 7 i ∧
      ((crear_features rows).getD i default).ndvi_promedio_14d =
        rollingMeanAt (rows.map (·.ndvi)) 14 i ∧
      ((crear_features rows).getD i default).humedad_promedio_7d =
        rollingMeanAt (rows.map (·.soil_humidity)) 7 i ∧
      ((crear_features rows).getD i default).humedad_promedio_14d =
        rollingMeanAt (rows.map (·.soil_humidity)) 14 i ∧
      ((crear_features rows).getD i default).tmax_promedio_7d =
        rollingMeanAt (rows.map (·.tmax)) 7 i ∧
      ((crear_features rows).getD i default).tmax_promedio_14d =
        rollingMeanAt (rows.map (·.tmax)) 14 i) := by
  have hlen : ((xs.take (i + 1)).drop (i + 1 - w)).length = min (i + 1) w := by
    rw [List.length_drop, List.length_take]
    omega
  refine ⟨hlen, ?_, ?_, ?_⟩
  · simp only [rollingMeanAt]
    rw [hlen]
  · obtain ⟨a, l, rfl⟩ : ∃ a l, xs = a :: l := by
      cases xs with
      | nil => simp at hi
      | cons a l => exact ⟨a, l, rfl⟩
    have h1w : 1 - w = 0 := by omega
    simp [rollingMeanAt, h1w]
  · intro rows hrows
    rw [crear_features_getD rows i hrows]
    exact ⟨rfl, rfl, rfl, rfl, rfl, rfl⟩

theorem rolling_mean_partial_window_witness :
    ((0 : ℕ) < ([(4 : ℚ), 8] : List ℚ).length ∧ (0 : ℕ) < 7) ∧
    ((([(4 : ℚ), 8].take (0 + 1)).drop (0 + 1 - 7)).length = min (0 + 1) 7 ∧
     rollingMeanAt [(4 : ℚ), 8] 7 0 =
       (([(4 : ℚ), 8].take (0 + 1)).drop (0 + 1 - 7)).sum / ((min (0 + 1) 7 : ℕ) : ℚ) ∧
     rollingMeanAt [(4 : ℚ), 8] 7 0 = [(4 : ℚ), 8].getD 0 0 ∧
     (∀ rows : List Obs, 0 < rows.length →
      ((crear_features rows).getD 0 default).ndvi_promedio_7d =
        rollingMeanAt (rows.map (·.ndvi)) 7 0 ∧
      ((crear_features rows).getD 0 default).ndvi_promedio_14d =
        rollingMeanAt (rows.map (·.ndvi)) 14 0 ∧
      ((crear_features rows).getD 0 default).humedad_promedio_7d =
        rollingMeanAt (rows.map (·.soil_humidity)) 7 0 ∧
      ((crear_features rows).getD 0 default).humedad_promedio_14d =
        rollingMeanAt (rows.map (·.soil_humidity)) 14 0 ∧
      ((crear_features rows).getD 0 default).tmax_promedio_7d =
        rollingMeanAt (rows.map (·.tmax)) 7 0 ∧
      ((crear_features rows).getD 0 default).tmax_promedio_14d =
        rollingMeanAt (rows.map (·.tmax)) 14 0)) :=
  ⟨⟨by decide, by decide⟩,
   rolling_mean_partial_window [(4 : ℚ), 8] 7 0 (by decide) (by decide)⟩

/-! ## C9: the epsilon-guarded ratio -/

/-- **C9.** In both the Temporal Feature Deriver and the Single-Point
Feature Approximator, `evi_ndvi_ratio` is `evi / (ndvi + 0.001)` with
the fixed epsilon `0.001` guarding the division; the guarded
denominator is nonzero at `ndvi = 0`, and with `ndvi = 0`, `evi = 0.5`
the ratio is exactly `500`. -/
theorem ratio_epsilon_guard (rows : List Obs) (i : ℕ) (hi : i < rows.length) :
    ((crear_features rows).getD i default).evi_ndvi_ratio =
      (rows.getD i default).evi / ((rows.getD i default).ndvi + 0.001) ∧
    (∀ d : DatosEntrada,
      (calcular_features d).evi_ndvi_ratio = d.evi / (d.ndvi + 0.001)) ∧
    ((0 : ℚ) + 0.001 ≠ 0) ∧
    (∀ d : DatosEntrada, d.ndvi = 0 → d.evi = 0.5 →
      (calcular_features d).evi_ndvi_ratio = 500) := by
  refine ⟨?_, fun d => rfl, by norm_num, ?_⟩
  · rw [crear_features_getD rows i hi]
    rfl
  · intro d h0 h5
    show d.evi / (d.ndvi + 0.001) = 500
    rw [h0, h5]
    norm_num

theorem ratio_epsilon_guard_witness :
    (0 : ℕ) < ([⟨⟨2024, 6, 15⟩, 0, 0.5, 30, 28, 15, 20⟩] : List Obs).length ∧
    (((crear_features [⟨⟨2024, 6, 15⟩, 0, 0.5, 30, 28, 15, 20⟩]).getD 0 default).evi_ndvi_ratio =
      (([⟨⟨2024, 6, 15⟩, 0, 0.5, 30, 28, 15, 20⟩] : List Obs).getD 0 default).evi /
        ((([⟨⟨2024, 6, 15⟩, 0, 0.5, 30, 28, 15, 20⟩] : List Obs).getD 0 default).ndvi + 0.001) ∧
     (∀ d : DatosEntrada,
       (calcular_features d).evi_ndvi_ratio = d.evi / (d.ndvi + 0.001)) ∧
     ((0 : ℚ) + 0.001 ≠ 0) ∧
     (∀ d : DatosEntrada, d.ndvi = 0 → d.evi = 0.5 →
       (calcular_features d).evi_ndvi_ratio = 500)) :=
  ⟨by decide, ratio_epsilon_guard [⟨⟨2024, 6, 15⟩, 0, 0.5, 30, 28, 15, 20⟩] 0 (by decide)⟩

/-! ## C6: the single-point approximation -/

/-- **C6.** The Single-Point Feature Approximator substitutes the
observation's own current value for every rolling-mean and rolling-max
feature, exactly 0 for every trend feature and for
`dias_desde_inicio`, and takes the calendar features from the
observation's own date; on the observation
`ndvi=0.6, evi=0.5, lst=30, tmax=28, tmin=15, soil_humidity=20,
date=2024-06-15` this yields
`ndvi_promedio_7d = ndvi_promedio_14d = 0.6`,
`ndvi_tendencia_7d = ndvi_tendencia_14d = 0`, `mes = 6`,
`dias_desde_inicio = 0`. -/
theorem single_point_approximation (d : DatosEntrada) :
    (calcular_features d).ndvi_promedio_7d = d.ndvi ∧
    (calcular_features d).ndvi_promedio_14d = d.ndvi ∧
    (calcular_features d).humedad_promedio_7d = d.soil_humidity ∧
    (calcular_features d).humedad_promedio_14d = d.soil_humidity ∧
    (calcular_features d).tmax_promedio_7d = d.tmax ∧
    (calcular_features d).tmax_promedio_14d = d.tmax ∧
    (calcular_features d).lst_max_7d = d.lst ∧
    (calcular_features d).lst_max_14d = d.lst ∧
    (calcular_features d).ndvi_tendencia_7d = 0 ∧
    (calcular_features d).ndvi_tendencia_14d = 0 ∧
    (calcular_features d).humedad_tendencia_7d = 0 ∧
    (calcular_features d).humedad_tendencia_14d = 0 ∧
    (calcular_features d).dias_desde_inicio = 0 ∧
    (calcular_features d).mes = d.date.mes ∧
    (calcular_features d).dia_ano = d.date.diaDelAno ∧
    ((calcular_features ⟨⟨2024, 6, 15⟩, 0.6, 0.5, 30, 28, 15, 20⟩).ndvi_promedio_7d = 0.6 ∧
     (calcular_features ⟨⟨2024, 6, 15⟩, 0.6, 0.5, 30, 28, 15, 20⟩).ndvi_promedio_14d = 0.6 ∧
     (calcular_features ⟨⟨2024, 6, 15⟩, 0.6, 0.5, 30, 28, 15, 20⟩).ndvi_tendencia_7d = 0 ∧
     (calcular_features ⟨⟨2024, 6, 15⟩, 0.6, 0.5, 30, 28, 15, 20⟩).ndvi_tendencia_14d = 0 ∧
     (calcular_features ⟨⟨2024, 6, 15⟩, 0.6, 0.5, 30, 28, 15, 20⟩).mes = 6 ∧
     (calcular_features ⟨⟨2024, 6, 15⟩, 0.6, 0.5, 30, 28, 15, 20⟩).dias_desde_inicio = 0) :=
  ⟨rfl, rfl, rfl, rfl, rfl, rfl, rfl, rfl, rfl, rfl, rfl, rfl, rfl, rfl, rfl,
   rfl, rfl, rfl, rfl, rfl, rfl⟩

/-! ## The one-row table, evaluated in closed form -/

theorem quantile_singleton (x q : ℚ) : quantile [x] q = x := by
  simp [quantile, List.insertionSort, List.orderedInsert]

theorem estres_moderado_singleton (o : Obs) : estres_moderado [o] 0 = false := by
  simp [estres_moderado, p50_humedad, p50_ndvi, quantile_singleton, optLt, diffAt,
    lt_self_iff_false]

theorem estres_severo_singleton (o : Obs) : estres_severo [o] 0 = false := by
  simp [estres_severo, p25_humedad, p25_ndvi, p75_lst, quantile_singleton, optLt,
    diffAt, lt_self_iff_false]

/-- A one-observation series, pushed through the whole
feature-and-label pipeline: every rolling feature collapses to the
observation's own value, every trend is null, the label is 0 and the
tag is `"sin_estres"`. -/
theorem crear_features_singleton (o : Obs) :
    crear_features [o] =
      [{ date := o.date
         ndvi := o.ndvi
         evi := o.evi
         lst := o.lst
         tmax := o.tmax
         tmin := o.tmin
         soil_humidity := o.soil_humidity
         ndvi_promedio_7d := o.ndvi
         ndvi_tendencia_7d := none
         humedad_promedio_7d := o.soil_humidity
         humedad_tendencia_7d := none
         lst_max_7d := o.lst
         tmax_promedio_7d := o.tmax
         ndvi_promedio_14d := o.ndvi
         ndvi_tendencia_14d := none
         humedad_promedio_14d := o.soil_humidity
         humedad_tendencia_14d := none
         lst_max_14d := o.lst
         tmax_promedio_14d := o.tmax
         evi_ndvi_ratio := o.evi / (o.ndvi + 0.001)
         temp_promedio := (o.tmax + o.tmin) / 2
         amplitud_termica := o.tmax - o.tmin
         deficit_combinado := deficit_combinado o.soil_humidity o.lst o.ndvi
         mes := o.date.mes
         dia_ano := o.date.diaDelAno
         dias_desde_inicio := 0
         estres_nivel := 0
         estres_etiqueta := some "sin_estres" }] := by
  simp [crear_features, filaFeatures, estres_nivel, estres_moderado_singleton,
    estres_severo_singleton, rollingMeanAt, rollingMaxAt, diffAt, mapa_etiqueta,
    fechaMinimaDias, List.range_succ]

/-- A fixed example observation used by concrete witnesses. -/
def obsEjemplo : Obs := ⟨⟨2024, 6, 15⟩, 0.6, 0.5, 30, 28, 15, 20⟩

/-! ## Monotonicity of the percentile computation -/

theorem sorted_getD_mono (s : List ℚ) (hs : s.Sorted (· ≤ ·)) {i j : ℕ}
    (hij : i ≤ j) (hj : j < s.length) : s.getD i 0 ≤ s.getD j 0 := by
  have hi : i < s.length := lt_of_le_of_lt hij hj
  rw [List.getD_eq_getElem s 0 hi, List.getD_eq_getElem s 0 hj]
  have := hs.rel_get_of_le (a := ⟨i, hi⟩) (b := ⟨j, hj⟩) hij
  simpa using this

theorem getD_le_getD_succ (s : List ℚ) (hs : s.Sorted (· ≤ ·)) (k : ℕ)
    (_hk : k < s.length) : s.getD k 0 ≤ s.getD (k + 1) (s.getD k 0) := by
  rcases lt_or_ge (k + 1) s.length with h | h
  · have h1 := sorted_getD_mono s hs (Nat.le_succ k) h
    rw [List.getD_eq_getElem s _ h]
    rw [List.getD_eq_getElem s 0 h] at h1
    exact h1
  · rw [List.getD_eq_default s _ h]

/-- The linear interpolation between order statistics used by
`quantile` is monotone in the interpolation position. -/
theorem interp_mono (s : List ℚ) (hs : s.Sorted (· ≤ ·)) (a b : ℚ)
    (ha0 : 0 ≤ a) (hab : a ≤ b) (hbn : b ≤ (s.length : ℚ) - 1) :
    s.getD (⌊a⌋).toNat 0 + (a - (((⌊a⌋).toNat : ℕ) : ℚ)) *
        (s.getD ((⌊a⌋).toNat + 1) (s.getD (⌊a⌋).toNat 0) - s.getD (⌊a⌋).toNat 0) ≤
      s.getD (⌊b⌋).toNat 0 + (b - (((⌊b⌋).toNat : ℕ) : ℚ)) *
        (s.getD ((⌊b⌋).toNat + 1) (s.getD (⌊b⌋).toNat 0) - s.getD (⌊b⌋).toNat 0) := by
  have hb0 : 0 ≤ b := ha0.trans hab
  have hlen : 1 ≤ s.length := by
    by_contra hc
    push_neg at hc
    have h0 : s.length = 0 := by omega
    rw [h0] at hbn
    norm_num at hbn
    linarith
  set i := (⌊a⌋).toNat with hi_def
  set j := (⌊b⌋).toNat with hj_def
  have hfa : (0 : ℤ) ≤ ⌊a⌋ := Int.floor_nonneg.mpr ha0
  have hfb : (0 : ℤ) ≤ ⌊b⌋ := Int.floor_nonneg.mpr hb0
  have hia : (i : ℚ) ≤ a := by
    have h1 : ((i : ℤ) : ℚ) ≤ a := by
      rw [hi_def, Int.toNat_of_nonneg hfa]
      exact Int.floor_le a
    exact_mod_cast h1
  have hai : a < (i : ℚ) + 1 := by
    have h1 : a < ((i : ℤ) : ℚ) + 1 := by
      rw [hi_def, Int.toNat_of_nonneg hfa]
      exact Int.lt_floor_add_one a
    exact_mod_cast h1
  have hjb : (j : ℚ) ≤ b := by
    have h1 : ((j : ℤ) : ℚ) ≤ b := by
      rw [hj_def, Int.toNat_of_nonneg hfb]
      exact Int.floor_le b
    exact_mod_cast h1
  have hij : i ≤ j := by
    rw [hi_def, hj_def]
    exact Int.toNat_le_toNat (Int.floor_mono hab)
  have hjn : j < s.length := by
    have h1 : ⌊b⌋ ≤ ⌊((s.length : ℚ) - 1)⌋ := Int.floor_mono hbn
    rw [Int.floor_sub_one, Int.floor_natCast] at h1
    omega
  have hin : i < s.length := lt_of_le_of_lt hij hjn
  have hlo_hi_a : s.getD i 0 ≤ s.getD (i + 1) (s.getD i 0) := getD_le_getD_succ s hs i hin
  have hlo_hi_b : s.getD j 0 ≤ s.getD (j + 1) (s.getD j 0) := getD_le_getD_succ s hs j hjn
  rcases eq_or_lt_of_le hij with heq | hlt
  · have h1 : s.getD j 0 + (a - (j : ℚ)) * (s.getD (j + 1) (s.getD j 0) - s.getD j 0) ≤
        s.getD j 0 + (b - (j : ℚ)) * (s.getD (j + 1) (s.getD j 0) - s.getD j 0) := by
      have hmul : (a - (j : ℚ)) ≤ (b - (j : ℚ)) := by linarith
      have hpos : 0 ≤ s.getD (j + 1) (s.getD j 0) - s.getD j 0 := by linarith
      have := mul_le_mul_of_nonneg_right hmul hpos
      linarith
    rw [heq]
    exact h1
  · have hi1n : i + 1 ≤ j := hlt
    have hi1len : i + 1 < s.length := lt_of_le_of_lt hi1n hjn
    have hfa_le : s.getD i 0 + (a - (i : ℚ)) *
        (s.getD (i + 1) (s.getD i 0) - s.getD i 0) ≤ s.getD (i + 1) (s.getD i 0) := by
      have h1 : a - (i : ℚ) ≤ 1 := by linarith
      have h2 : 0 ≤ s.getD (i + 1) (s.getD i 0) - s.getD i 0 := by linarith
      have := mul_le_mul_of_nonneg_right h1 h2
      linarith
    have hhi_eq : s.getD (i + 1) (s.getD i 0) = s.getD (i + 1) 0 := by
      rw [List.getD_eq_getElem s _ hi1len, List.getD_eq_getElem s 0 hi1len]
    have hmid : s.getD (i + 1) 0 ≤ s.getD j 0 := sorted_getD_mono s hs hi1n hjn
    have hfb_ge : s.getD j 0 ≤ s.getD j 0 + (b - (j : ℚ)) *
        (s.getD (j + 1) (s.getD j 0) - s.getD j 0) := by
      have h1 : (0 : ℚ) ≤ b - (j : ℚ) := by linarith
      have h2 : 0 ≤ s.getD (j + 1) (s.getD j 0) - s.getD j 0 := by linarith
      have := mul_nonneg h1 h2
      linarith
    calc s.getD i 0 + (a - (i : ℚ)) * (s.getD (i + 1) (s.getD i 0) - s.getD i 0) ≤
          s.getD (i + 1) (s.getD i 0) := hfa_le
      _ = s.getD (i + 1) 0 := hhi_eq
      _ ≤ s.getD j 0 := hmid
      _ ≤ _ := hfb_ge

/-- `Series.quantile` is monotone in the quantile point on `[0, 1]`:
in particular a 25th percentile never exceeds the 50th. -/
theorem quantile_mono (xs : List ℚ) (q q' : ℚ) (hq0 : 0 ≤ q) (hqq : q ≤ q')
    (hq1 : q' ≤ 1) : quantile xs q ≤ quantile xs q' := by
  have hs : (List.insertionSort (· ≤ ·) xs).Sorted (· ≤ ·) :=
    List.sorted_insertionSort _ xs
  rcases Nat.eq_zero_or_pos (List.insertionSort (· ≤ ·) xs).length with h0 | hpos
  · have hnil : List.insertionSort (· ≤ ·) xs = [] := List.length_eq_zero.mp h0
    simp only [quantile, hnil]
    simp
  · have hl : (0 : ℚ) ≤ ((List.insertionSort (· ≤ ·) xs).length : ℚ) - 1 := by
      have h1 : (1 : ℚ) ≤ ((List.insertionSort (· ≤ ·) xs).length : ℚ) := by
        exact_mod_cast hpos
      linarith
    simp only [quantile]
    apply interp_mono _ hs
    · exact mul_nonneg hl hq0
    · exact mul_le_mul_of_nonneg_left hqq hl
    · calc (((List.insertionSort (· ≤ ·) xs).length : ℚ) - 1) * q' ≤
            (((List.insertionSort (· ≤ ·) xs).length : ℚ) - 1) * 1 :=
          mul_le_mul_of_nonneg_left hq1 hl
        _ = ((List.insertionSort (· ≤ ·) xs).length : ℚ) - 1 := mul_one _

theorem p25_le_p50_humedad (rows : List Obs) :
    p25_humedad rows ≤ p50_humedad rows :=
  quantile_mono _ 0.25 0.50 (by norm_num) (by norm_num) (by norm_num)

/-! ## C2: the label-derivation rules -/

/-- **C2.** The Stress Label Deriver defaults every row to level 0,
promotes to level 1 the rows matching any of the three moderate rules,
then promotes to level 2 the rows matching any of the three severe
rules, the severe pass being evaluated after and overriding the
moderate one; the moderate and severe masks are exactly the disjunctions
of the spec, and every percentile threshold is computed from the
table's own `soil_humidity`, `ndvi` and `lst` columns. -/
theorem stress_label_rules (rows : List Obs) (i : ℕ) (hi : i < rows.length) :
    ((crear_features rows).getD i default).estres_nivel =
      (if estres_severo rows i then 2 else if estres_moderado rows i then 1 else 0) ∧
    (estres_moderado rows i = true ↔
      (((rows.getD i default).soil_humidity < p50_humedad rows ∧
          (rows.getD i default).ndvi < p50_ndvi rows) ∨
       (deficit_combinado (rows.getD i default).soil_humidity
          (rows.getD i default).lst (rows.getD i default).ndvi > 0.4 ∧
          (rows.getD i default).soil_humidity < p50_humedad rows) ∨
       (optLt (diffAt (rows.map (·.ndvi)) 7 i) (-0.03) = true ∧
          (rows.getD i default).soil_humidity < p50_humedad rows))) ∧
    (estres_severo rows i = true ↔
      ((rows.getD i default).soil_humidity < p25_humedad rows ∨
       ((rows.getD i default).ndvi < p25_ndvi rows ∧
          (rows.getD i default).soil_humidity < p50_humedad rows) ∨
       ((rows.getD i default).lst > p75_lst rows ∧
          optLt (diffAt (rows.map (·.ndvi)) 14 i) (-0.05) = true))) ∧
    (estres_severo rows i = true → estres_moderado rows i = true →
      ((crear_features rows).getD i default).estres_nivel = 2) ∧
    p25_humedad rows = quantile (rows.map (·.soil_humidity)) 0.25 ∧
    p50_humedad rows = quantile (rows.map (·.soil_humidity)) 0.50 ∧
    p25_ndvi rows = quantile (rows.map (·.ndvi)) 0.25 ∧
    p50_ndvi rows = quantile (rows.map (·.ndvi)) 0.50 ∧
    p75_lst rows = quantile (rows.map (·.lst)) 0.75 := by
  have hnivel : ((crear_features rows).getD i default).estres_nivel =
      (if estres_severo rows i then 2 else if estres_moderado rows i then 1 else 0) := by
    rw [crear_features_getD rows i hi]
    rfl
  refine ⟨hnivel, ?_, ?_, ?_, rfl, rfl, rfl, rfl, rfl⟩
  · simp [estres_moderado, Bool.or_eq_true, Bool.and_eq_true, decide_eq_true_eq,
      or_assoc]
  · simp [estres_severo, Bool.or_eq_true, Bool.and_eq_true, decide_eq_true_eq,
      or_assoc]
  · intro hs _
    rw [hnivel, if_pos hs]

theorem stress_label_rules_witness :
    (0 : ℕ) < ([obsEjemplo] : List Obs).length ∧
    (((crear_features [obsEjemplo]).getD 0 default).estres_nivel =
      (if estres_severo [obsEjemplo] 0 then 2
       else if estres_moderado [obsEjemplo] 0 then 1 else 0) ∧
     (estres_moderado [obsEjemplo] 0 = true ↔
      ((([obsEjemplo] : List Obs).getD 0 default).soil_humidity < p50_humedad [obsEjemplo] ∧
          (([obsEjemplo] : List Obs).getD 0 default).ndvi < p50_ndvi [obsEjemplo]) ∨
       (deficit_combinado (([obsEjemplo] : List Obs).getD 0 default).soil_humidity
          (([obsEjemplo] : List Obs).getD 0 default).lst
          (([obsEjemplo] : List Obs).getD 0 default).ndvi > 0.4 ∧
          (([obsEjemplo] : List Obs).getD 0 default).soil_humidity < p50_humedad [obsEjemplo]) ∨
       (optLt (diffAt (([obsEjemplo] : List Obs).map (·.ndvi)) 7 0) (-0.03) = true ∧
          (([obsEjemplo] : List Obs).getD 0 default).soil_humidity < p50_humedad [obsEjemplo])) ∧
     (estres_severo [obsEjemplo] 0 = true ↔
      ((([obsEjemplo] : List Obs).getD 0 default).soil_humidity < p25_humedad [obsEjemplo] ∨
       ((([obsEjemplo] : List Obs).getD 0 default).ndvi < p25_ndvi [obsEjemplo] ∧
          (([obsEjemplo] : List Obs).getD 0 default).soil_humidity < p50_humedad [obsEjemplo]) ∨
       ((([obsEjemplo] : List Obs).getD 0 default).lst > p75_lst [obsEjemplo] ∧
          optLt (diffAt (([obsEjemplo] : List Obs).map (·.ndvi)) 14 0) (-0.05) = true))) ∧
     (estres_severo [obsEjemplo] 0 = true → estres_moderado [obsEjemplo] 0 = true →
      ((crear_features [obsEjemplo]).getD 0 default).estres_nivel = 2) ∧
     p25_humedad [obsEjemplo] = quantile (([obsEjemplo] : List Obs).map (·.soil_humidity)) 0.25 ∧
     p50_humedad [obsEjemplo] = quantile (([obsEjemplo] : List Obs).map (·.soil_humidity)) 0.50 ∧
     p25_ndvi [obsEjemplo] = quantile (([obsEjemplo] : List Obs).map (·.ndvi)) 0.25 ∧
     p50_ndvi [obsEjemplo] = quantile (([obsEjemplo] : List Obs).map (·.ndvi)) 0.50 ∧
     p75_lst [obsEjemplo] = quantile (([obsEjemplo] : List Obs).map (·.lst)) 0.75) :=
  ⟨by decide, stress_label_rules [obsEjemplo] 0 (by decide)⟩

/-! ## C10: the moderate label implies below-median humidity -/

/-- **C10.** Every row assigned the moderate label (level 1) has
`soil_humidity` strictly below the table's 50th-percentile humidity
threshold, because each moderate-promotion rule conjoins that
condition; a row whose humidity is at or above that threshold ends at
level 0 or, exclusively via the LST/trend severe rule, at level 2. -/
theorem moderate_label_implies_dry (rows : List Obs) (i : ℕ)
    (hi : i < rows.length) :
    (((crear_features rows).getD i default).estres_nivel = 1 →
      ((crear_features rows).getD i default).soil_humidity < p50_humedad rows) ∧
    (p50_humedad rows ≤ ((crear_features rows).getD i default).soil_humidity →
      ((crear_features rows).getD i default).estres_nivel = 0 ∨
      (((crear_features rows).getD i default).estres_nivel = 2 ∧
        p75_lst rows < ((crear_features rows).getD i default).lst ∧
        optLt (diffAt (rows.map (·.ndvi)) 14 i) (-0.05) = true)) := by
  rw [crear_features_getD rows i hi]
  have hsoil : (filaFeatures rows i).soil_humidity =
      (rows.getD i default).soil_humidity := rfl
  have hlst : (filaFeatures rows i).lst = (rows.getD i default).lst := rfl
  have hniv : (filaFeatures rows i).estres_nivel = estres_nivel rows i := rfl
  rw [hsoil, hlst, hniv]
  constructor
  · intro h1
    by_cases hsev : estres_severo rows i = true
    · simp only [estres_nivel, if_pos hsev] at h1
      exact absurd h1 (by norm_num)
    · simp only [estres_nivel, Bool.not_eq_true] at h1
      rw [if_neg (by simp [hsev])] at h1
      by_cases hmod : estres_moderado rows i = true
      · have hm : ((rows.getD i default).soil_humidity < p50_humedad rows ∧
            (rows.getD i default).ndvi < p50_ndvi rows) ∨
            (deficit_combinado (rows.getD i default).soil_humidity
              (rows.getD i default).lst (rows.getD i default).ndvi > 0.4 ∧
              (rows.getD i default).soil_humidity < p50_humedad rows) ∨
            (optLt (diffAt (rows.map (·.ndvi)) 7 i) (-0.03) = true ∧
              (rows.getD i default).soil_humidity < p50_humedad rows) := by
          simpa [estres_moderado, Bool.or_eq_true, Bool.and_eq_true,
            decide_eq_true_eq, or_assoc] using hmod
        rcases hm with ⟨h, _⟩ | ⟨_, h⟩ | ⟨_, h⟩ <;> exact h
      · rw [if_neg hmod] at h1
        exact absurd h1 (by norm_num)
  · intro hge
    have hnotdry : ¬ ((rows.getD i default).soil_humidity < p50_humedad rows) :=
      not_lt.mpr hge
    have hmodf : ¬ (estres_moderado rows i = true) := by
      intro hmod
      have hm : ((rows.getD i default).soil_humidity < p50_humedad rows ∧
          (rows.getD i default).ndvi < p50_ndvi rows) ∨
          (deficit_combinado (rows.getD i default).soil_humidity
            (rows.getD i default).lst (rows.getD i default).ndvi > 0.4 ∧
            (rows.getD i default).soil_humidity < p50_humedad rows) ∨
          (optLt (diffAt (rows.map (·.ndvi)) 7 i) (-0.03) = true ∧
            (rows.getD i default).soil_humidity < p50_humedad rows) := by
        simpa [estres_moderado, Bool.or_eq_true, Bool.and_eq_true,
          decide_eq_true_eq, or_assoc] using hmod
      rcases hm with ⟨h, _⟩ | ⟨_, h⟩ | ⟨_, h⟩ <;> exact hnotdry h
    by_cases hsev : estres_severo rows i = true
    · have hsv : (rows.getD i default).soil_humidity < p25_humedad rows ∨
          ((rows.getD i default).ndvi < p25_ndvi rows ∧
            (rows.getD i default).soil_humidity < p50_humedad rows) ∨
          ((rows.getD i default).lst > p75_lst rows ∧
            optLt (diffAt (rows.map (·.ndvi)) 14 i) (-0.05) = true) := by
        simpa [estres_severo, Bool.or_eq_true, Bool.and_eq_true,
          decide_eq_true_eq, or_assoc] using hsev
      rcases hsv with h | ⟨_, h⟩ | ⟨h1, h2⟩
      · exact absurd (lt_of_lt_of_le h (p25_le_p50_humedad rows)) hnotdry
      · exact absurd h hnotdry
      · refine Or.inr ⟨?_, h1, h2⟩
        simp only [estres_nivel, if_pos hsev]
    · refine Or.inl ?_
      simp only [estres_nivel]
      rw [if_neg hsev, if_neg hmodf]

theorem moderate_label_implies_dry_witness :
    (0 : ℕ) < ([obsEjemplo] : List Obs).length ∧
    ((((crear_features [obsEjemplo]).getD 0 default).estres_nivel = 1 →
      ((crear_features [obsEjemplo]).getD 0 default).soil_humidity <
        p50_humedad [obsEjemplo]) ∧
     (p50_humedad [obsEjemplo] ≤
        ((crear_features [obsEjemplo]).getD 0 default).soil_humidity →
      ((crear_features [obsEjemplo]).getD 0 default).estres_nivel = 0 ∨
      (((crear_features [obsEjemplo]).getD 0 default).estres_nivel = 2 ∧
        p75_lst [obsEjemplo] < ((crear_features [obsEjemplo]).getD 0 default).lst ∧
        optLt (diffAt (([obsEjemplo] : List Obs).map (·.ndvi)) 14 0) (-0.05) = true))) :=
  ⟨by decide, moderate_label_implies_dry [obsEjemplo] 0 (by decide)⟩

/-! ## C1: the composite deficit score -/

/-- **C1, counterexample.** The Single-Point Feature Approximator does
not clamp its deficit blend: with `soil_humidity = -100` the deficit
differs from the one at `soil_humidity = 0` and exceeds 1, refuting
the claim that the single-point `deficit_combinado` is clamped to
[0,1] and saturates at the humidity bound. -/
theorem deficit_api_unclamped_cex :
    (calcular_features ⟨⟨2024, 6, 15⟩, 0.5, 0.5, 30, 28, 15, -100⟩).deficit_combinado ≠
      (calcular_features ⟨⟨2024, 6, 15⟩, 0.5, 0.5, 30, 28, 15, 0⟩).deficit_combinado ∧
    1 < (calcular_features ⟨⟨2024, 6, 15⟩, 0.5, 0.5, 30, 28, 15, -100⟩).deficit_combinado := by
  constructor <;> norm_num [calcular_features]

/-- **C1, amended.** The Temporal Feature Deriver's `deficit_combinado`
is the weighted blend with the humidity and temperature terms clipped
to [0,1] and the whole clipped to [0,1] again, so it always lies in
[0,1] and `soil_humidity = -100` contributes like `soil_humidity = 0`;
the Single-Point Feature Approximator instead computes the raw blend
with no clipping at all. -/
theorem deficit_clamped_training_unclamped_api (rows : List Obs) (i : ℕ)
    (hi : i < rows.length) :
    ((crear_features rows).getD i default).deficit_combinado =
      clip ((1 - clip ((rows.getD i default).soil_humidity / 35.0) 0 1) * 0.5 +
        clip (((rows.getD i default).lst - 25) / 20) 0 1 * 0.3 +
        (1 - (rows.getD i default).ndvi) * 0.2) 0 1 ∧
    0 ≤ ((crear_features rows).getD i default).deficit_combinado ∧
    ((crear_features rows).getD i default).deficit_combinado ≤ 1 ∧
    (∀ l n : ℚ, deficit_combinado (-100) l n = deficit_combinado 0 l n) ∧
    (∀ d : DatosEntrada, (calcular_features d).deficit_combinado =
      (1 - d.soil_humidity / 35) * 0.5 + ((d.lst - 25) / 20) * 0.3 +
        (1 - d.ndvi) * 0.2) := by
  rw [crear_features_getD rows i hi]
  have hval : (filaFeatures rows i).deficit_combinado =
      clip ((1 - clip ((rows.getD i default).soil_humidity / 35.0) 0 1) * 0.5 +
        clip (((rows.getD i default).lst - 25) / 20) 0 1 * 0.3 +
        (1 - (rows.getD i default).ndvi) * 0.2) 0 1 := rfl
  refine ⟨hval, ?_, ?_, ?_, fun d => rfl⟩
  · rw [hval]
    exact lo_le_clip _ 0 1 (by norm_num)
  · rw [hval]
    exact clip_le_hi _ 0 1
  · intro l n
    have h1 : clip ((-100 : ℚ) / 35.0) 0 1 = clip ((0 : ℚ) / 35.0) 0 1 := by
      unfold clip
      rw [max_eq_right (by norm_num), max_eq_right (by norm_num)]
    simp only [deficit_combinado, h1]

theorem deficit_clamped_training_unclamped_api_witness :
    (0 : ℕ) < ([obsEjemplo] : List Obs).length ∧
    (((crear_features [obsEjemplo]).getD 0 default).deficit_combinado =
      clip ((1 - clip ((([obsEjemplo] : List Obs).getD 0 default).soil_humidity / 35.0) 0 1) * 0.5 +
        clip (((([obsEjemplo] : List Obs).getD 0 default).lst - 25) / 20) 0 1 * 0.3 +
        (1 - (([obsEjemplo] : List Obs).getD 0 default).ndvi) * 0.2) 0 1 ∧
     0 ≤ ((crear_features [obsEjemplo]).getD 0 default).deficit_combinado ∧
     ((crear_features [obsEjemplo]).getD 0 default).deficit_combinado ≤ 1 ∧
     (∀ l n : ℚ, deficit_combinado (-100) l n = deficit_combinado 0 l n) ∧
     (∀ d : DatosEntrada, (calcular_features d).deficit_combinado =
       (1 - d.soil_humidity / 35) * 0.5 + ((d.lst - 25) / 20) * 0.3 +
         (1 - d.ndvi) * 0.2)) :=
  ⟨by decide, deficit_clamped_training_unclamped_api [obsEjemplo] 0 (by decide)⟩

/-! ## C3: null-trend rows are not excluded -/

/-- **C3, counterexample.** On a one-row series, the pipeline
(`procesar_datos`, which drops raw nulls *before* building features)
returns a table whose single row has a null `ndvi_tendencia_7d` yet
carries a stress label and tag — so rows with null required features do
reach label derivation and the resulting table. -/
theorem null_rows_in_pipeline_output_cex :
    (procesar_datos [obsEjemplo]).length = 1 ∧
    ((procesar_datos [obsEjemplo]).map (·.ndvi_tendencia_7d)) = [none] ∧
    ((procesar_datos [obsEjemplo]).map (·.estres_etiqueta)) = [some "sin_estres"] := by
  refine ⟨?_, ?_, ?_⟩ <;> simp [procesar_datos, crear_features_singleton]

/-- **C3, amended.** `procesar_datos` drops null rows only in the raw
input, before feature derivation; the labeled table keeps one row per
(cleaned) input row, the first `window` rows carry null trend features
yet still receive a label (their null trend conditions evaluate
false), and only the training stage's own `dropna` later removes rows
with null required features. -/
theorem null_trend_rows_retained (rows : List Obs) (i : ℕ)
    (hi : i < rows.length) (h7 : i < 7) :
    (procesar_datos rows).length = rows.length ∧
    ((procesar_datos rows).getD i default).ndvi_tendencia_7d = none ∧
    ((procesar_datos rows).getD i default).estres_etiqueta =
      mapa_etiqueta (estres_nivel rows i) ∧
    (∀ t : List FeatureRow, ∀ r ∈ t.filter sinNulosRequeridos,
      sinNulosRequeridos r = true) := by
  unfold procesar_datos
  rw [crear_features_getD rows i hi]
  refine ⟨crear_features_length rows, ?_, rfl, ?_⟩
  · show diffAt (rows.map (·.ndvi)) 7 i = none
    unfold diffAt
    rw [if_neg (by omega)]
  · intro t r hr
    exact (List.mem_filter.mp hr).2

theorem null_trend_rows_retained_witness :
    ((0 : ℕ) < ([obsEjemplo] : List Obs).length ∧ (0 : ℕ) < 7) ∧
    ((procesar_datos [obsEjemplo]).length = ([obsEjemplo] : List Obs).length ∧
     ((procesar_datos [obsEjemplo]).getD 0 default).ndvi_tendencia_7d = none ∧
     ((procesar_datos [obsEjemplo]).getD 0 default).estres_etiqueta =
       mapa_etiqueta (estres_nivel [obsEjemplo] 0) ∧
     (∀ t : List FeatureRow, ∀ r ∈ t.filter sinNulosRequeridos,
       sinNulosRequeridos r = true)) :=
  ⟨⟨by decide, by decide⟩, null_trend_rows_retained [obsEjemplo] 0 (by decide) (by decide)⟩

/-! ## C4: the label-diversity guard lives in the trainer -/

/-- **C4, counterexample.** On a concrete series the Stress Label
Deriver silently returns a full training table whose labels have a
single distinct value — it performs no diversity check and signals
nothing. -/
theorem single_class_table_returned_cex :
    ((crear_features [obsEjemplo]).map (·.estres_nivel)) = [0] ∧
    (crear_features [obsEjemplo]).length = 1 ∧
    ((crear_features [obsEjemplo]).map (·.estres_nivel)).dedup.length = 1 := by
  refine ⟨?_, ?_, ?_⟩ <;> simp [crear_features_singleton]

/-- **C4, amended.** The label deriver returns the labeled table
unconditionally; the diversity check is performed by the training
stage, which returns an explicit empty result (`None`) exactly when
the cleaned table's labels have fewer than 2 distinct values. -/
theorem label_diversity_checked_in_trainer (t : List FeatureRow) :
    (entrenar_modelo t = none ↔
      ((t.filter sinNulosRequeridos).map (·.estres_nivel)).dedup.length < 2) ∧
    (∀ rows : List Obs, (crear_features rows).length = rows.length) := by
  refine ⟨?_, crear_features_length⟩
  simp only [entrenar_modelo]
  split <;> simp_all

/-! ## C5: the textual tags are Spanish -/

/-- **C5, counterexample.** The tag attached to a level-0 row is
`"sin_estres"`, not `"no_stress"`: the fixed tags of the code are the
Spanish `sin_estres` / `estres_moderado` / `estres_severo`. -/
theorem spanish_tags_cex :
    ((crear_features [obsEjemplo]).map (·.estres_etiqueta)) = [some "sin_estres"] ∧
    "sin_estres" ≠ "no_stress" :=
  ⟨by simp [crear_features_singleton], by decide⟩

/-- **C5, amended.** Every labeled row's text tag is the image of its
ordinal label under the fixed map 0→`"sin_estres"`,
1→`"estres_moderado"`, 2→`"estres_severo"`, and the ordinal label never
exceeds 2. -/
theorem label_text_mapping (rows : List Obs) (i : ℕ) (hi : i < rows.length) :
    ((crear_features rows).getD i default).estres_etiqueta =
      mapa_etiqueta ((crear_features rows).getD i default).estres_nivel ∧
    mapa_etiqueta 0 = some "sin_estres" ∧
    mapa_etiqueta 1 = some "estres_moderado" ∧
    mapa_etiqueta 2 = some "estres_severo" ∧
    ((crear_features rows).getD i default).estres_nivel ≤ 2 := by
  rw [crear_features_getD rows i hi]
  refine ⟨rfl, rfl, rfl, rfl, ?_⟩
  show estres_nivel rows i ≤ 2
  simp only [estres_nivel]
  split
  · norm_num
  · split <;> norm_num

theorem label_text_mapping_witness :
    (0 : ℕ) < ([obsEjemplo] : List Obs).length ∧
    (((crear_features [obsEjemplo]).getD 0 default).estres_etiqueta =
      mapa_etiqueta ((crear_features [obsEjemplo]).getD 0 default).estres_nivel ∧
     mapa_etiqueta 0 = some "sin_estres" ∧
     mapa_etiqueta 1 = some "estres_moderado" ∧
     mapa_etiqueta 2 = some "estres_severo" ∧
     ((crear_features [obsEjemplo]).getD 0 default).estres_nivel ≤ 2) :=
  ⟨by decide, label_text_mapping [obsEjemplo] 0 (by decide)⟩

end BloomWatch
